import Mathlib

/-!
# Verification of the BetterStack uptime provider's core handlers

Shallow embedding of the repository's two source files:

* the outgoing-webhook resource (`src/unnamed/part_000`): schema, plan-time
  validation, the discriminator-gated field reference list, and the
  create / read / update / copy-attrs handlers;
* the monitoring-IP data lookup (`src/internal/provider/data_ip_list.go`).

Go's `map[string]T` values are represented by association lists, machine
pointers (`*string`, `*bool`) by `Option`, and fallible operations by
`Except` / `Option`.  Helpers of the repository that are not under `src/`
(`load`, `resourceCreate`/`resourceRead` plumbing, and
`suppressEquivalentJSONDiffs`) are modelled from the spec; their doc
comments say so explicitly.
-/

/-! ## JSON values

Model of the JSON values handled by Go's `encoding/json` in this code base.
Numbers are modelled as integers (the payloads at issue — webhook body
templates and the cluster → IP map — use strings, booleans and integers).
Go unmarshals JSON objects into `map[string]interface{}`; we represent an
object as the association list of its entries, deduplicated last-wins the
way `encoding/json` fills a map.
-/

inductive Json where
  | null : Json
  | bool : Bool → Json
  | num : Int → Json
  | str : String → Json
  | arr : List Json → Json
  | obj : List (String × Json) → Json
deriving Repr

mutual

def jsonBeq : Json → Json → Bool
  | .null, .null => true
  | .bool a, .bool b => a == b
  | .num a, .num b => a == b
  | .str a, .str b => a == b
  | .arr xs, .arr ys => jsonBeqList xs ys
  | .obj es, .obj fs => jsonBeqEntries es fs
  | _, _ => false

def jsonBeqList : List Json → List Json → Bool
  | [], [] => true
  | x :: xs, y :: ys => jsonBeq x y && jsonBeqList xs ys
  | _, _ => false

def jsonBeqEntries : List (String × Json) → List (String × Json) → Bool
  | [], [] => true
  | (k, v) :: es, (l, w) :: fs => k == l && jsonBeq v w && jsonBeqEntries es fs
  | _, _ => false

end

/-! ### A small JSON parser (model of `encoding/json.Unmarshal`)

Fuel-based recursive-descent parser for the JSON subset above.  It skips
the whitespace characters space, tab, CR and LF; handles the escapes
`\"`, `\\`, `\/`, `\n`, `\t`, `\r` inside strings; and deduplicates object
keys last-wins, as `encoding/json` does when it fills a Go map.
-/

def isWsChar (c : Char) : Bool :=
  c = ' ' || c = '\n' || c = '\t' || c = '\r'

def skipWs (cs : List Char) : List Char :=
  cs.dropWhile isWsChar

def escChar (c : Char) : Option Char :=
  if c = '"' then some '"'
  else if c = '\\' then some '\\'
  else if c = '/' then some '/'
  else if c = 'n' then some '\n'
  else if c = 't' then some '\t'
  else if c = 'r' then some '\r'
  else none

/-- Consume the characters of a string literal up to (and including) the
closing quote; the opening quote has already been consumed. -/
def parseStringChars : List Char → Option (List Char × List Char)
  | [] => none
  | '"' :: rest => some ([], rest)
  | '\\' :: c :: rest =>
    match escChar c, parseStringChars rest with
    | some e, some (s, r) => some (e :: s, r)
    | _, _ => none
  | c :: rest =>
    match parseStringChars rest with
    | some (s, r) => some (c :: s, r)
    | none => none

def natOfDigits (ds : List Char) : Nat :=
  ds.foldl (fun a c => a * 10 + (c.toNat - 48)) 0

def parseNum (cs : List Char) : Option (Nat × List Char) :=
  let ds := cs.takeWhile (fun c => c.isDigit)
  if ds.isEmpty then none
  else some (natOfDigits ds, cs.dropWhile (fun c => c.isDigit))

/-- Last-wins insertion of an object member, mirroring how `encoding/json`
fills a `map[string]interface{}`: a later duplicate key overwrites an
earlier one.  `es` holds the members that occur later in the text. -/
def objInsert (k : String) (v : Json) (es : List (String × Json)) :
    List (String × Json) :=
  if es.any (fun e => e.1 == k) then es else (k, v) :: es

mutual

def parseVal : Nat → List Char → Option (Json × List Char)
  | 0, _ => none
  | fuel + 1, cs =>
    match skipWs cs with
    | 'n' :: 'u' :: 'l' :: 'l' :: r => some (.null, r)
    | 't' :: 'r' :: 'u' :: 'e' :: r => some (.bool true, r)
    | 'f' :: 'a' :: 'l' :: 's' :: 'e' :: r => some (.bool false, r)
    | '"' :: r =>
      match parseStringChars r with
      | some (s, r2) => some (.str (String.mk s), r2)
      | none => none
    | '-' :: r =>
      match parseNum r with
      | some (m, r2) => some (.num (-(m : Int)), r2)
      | none => none
    | '[' :: r =>
      match skipWs r with
      | ']' :: r2 => some (.arr [], r2)
      | r2 =>
        match parseElems fuel r2 with
        | some (xs, r3) => some (.arr xs, r3)
        | none => none
    | '\x7b' :: r =>
      match skipWs r with
      | '\x7d' :: r2 => some (.obj [], r2)
      | r2 =>
        match parseMembers fuel r2 with
        | some (es, r3) => some (.obj es, r3)
        | none => none
    | c :: r =>
      if c.isDigit then
        match parseNum (c :: r) with
        | some (m, r2) => some (.num (m : Int), r2)
        | none => none
      else none
    | [] => none

def parseElems : Nat → List Char → Option (List Json × List Char)
  | 0, _ => none
  | fuel + 1, cs =>
    match parseVal fuel cs with
    | none => none
    | some (v, r) =>
      match skipWs r with
      | ',' :: r2 =>
        match parseElems fuel r2 with
        | some (xs, r3) => some (v :: xs, r3)
        | none => none
      | ']' :: r2 => some ([v], r2)
      | _ => none

def parseMembers : Nat → List Char → Option (List (String × Json) × List Char)
  | 0, _ => none
  | fuel + 1, cs =>
    match skipWs cs with
    | '"' :: r =>
      match parseStringChars r with
      | none => none
      | some (kcs, r2) =>
        match skipWs r2 with
        | ':' :: r3 =>
          match parseVal fuel r3 with
          | none => none
          | some (v, r4) =>
            match skipWs r4 with
            | ',' :: r5 =>
              match parseMembers fuel r5 with
              | some (es, r6) => some (objInsert (String.mk kcs) v es, r6)
              | none => none
            | '\x7d' :: r5 => some ([(String.mk kcs, v)], r5)
            | _ => none
        | _ => none
    | _ => none

end

/-- Parse a whole string as a single JSON value (trailing whitespace
allowed), the way `json.Unmarshal` accepts a complete document. -/
def jsonParse (s : String) : Option Json :=
  match parseVal (s.length + 10) s.toList with
  | some (v, rest) => if (skipWs rest).isEmpty then some v else none
  | none => none

/-! ### Canonical form: recursively sort object keys

Go compares unmarshalled JSON values with `reflect.DeepEqual` on maps, which
is insensitive to member order.  We model that comparison by sorting every
object's members by key and comparing the results structurally.
-/

/-- Order on object members: by key. -/
def keyLe (p q : String × Json) : Prop := p.1 ≤ q.1

instance : DecidableRel keyLe := fun p q =>
  inferInstanceAs (Decidable (p.1 ≤ q.1))

instance : IsTotal (String × Json) keyLe :=
  ⟨fun p q => le_total p.1 q.1⟩

instance : IsTrans (String × Json) keyLe :=
  ⟨fun _ _ _ h1 h2 => le_trans h1 h2⟩

mutual

def canon : Json → Json
  | .null => .null
  | .bool b => .bool b
  | .num n => .num n
  | .str s => .str s
  | .arr xs => .arr (canonList xs)
  | .obj es => .obj (List.insertionSort keyLe (canonEntries es))

def canonList : List Json → List Json
  | [] => []
  | x :: xs => canon x :: canonList xs

def canonEntries : List (String × Json) → List (String × Json)
  | [] => []
  | (k, v) :: es => (k, canon v) :: canonEntries es

end

/-! ### Semantic equivalence of JSON values

`JsonEquiv a b` says `a` and `b` denote the same JSON document up to the
order of object members: leaves are equal, arrays are pointwise equivalent,
and each object's members are a permutation of (pointwise equivalent)
members with the same keys.  The keys of an object are required to be
duplicate-free, which holds for every value produced by `jsonParse` since
object construction deduplicates keys.  Whitespace differences between two
documents disappear at parse time.
-/

mutual

def JsonEquiv : Json → Json → Prop
  | .null, .null => True
  | .bool a, .bool b => a = b
  | .num a, .num b => a = b
  | .str a, .str b => a = b
  | .arr xs, .arr ys => JsonEquivList xs ys
  | .obj es, .obj fs =>
    (es.map Prod.fst).Nodup ∧ ∃ ms, JsonEquivEntries es ms ∧ ms.Perm fs
  | _, _ => False

def JsonEquivList : List Json → List Json → Prop
  | [], [] => True
  | x :: xs, y :: ys => JsonEquiv x y ∧ JsonEquivList xs ys
  | _, _ => False

def JsonEquivEntries : List (String × Json) → List (String × Json) → Prop
  | [], [] => True
  | (k, v) :: es, (l, w) :: fs => k = l ∧ JsonEquiv v w ∧ JsonEquivEntries es fs
  | _, _ => False

end

/-! ## The outgoing-webhook resource (src/unnamed/part_000)

`ResourceData` models the declarative record held by the plugin framework
for one `betteruptime_outgoing_webhook` resource: the value `d.Get(key)`
returns for each schema field, with schema defaults materialised (`""` for
unset optional strings, `false` for the incident flags, `"post"` for
`http_method`), plus the resource ID manipulated through `d.Id()` /
`d.SetId(...)`.  The `id` schema attribute (written back by `d.Set("id", _)`
in `outgoingWebhookCopyAttrs`) is kept in a separate `idAttr` field, as the
framework stores the resource ID and the schema attribute separately.
-/

structure headerTemplate where
  Name : String
  Value : String
deriving DecidableEq, Repr

/-- The declarative state of the single-item
`custom_webhook_template_attributes` block. -/
structure templateData where
  id : String := ""
  httpMethod : String := "post"
  authUsername : String := ""
  authPassword : String := ""
  headersTemplate : List headerTemplate := []
  bodyTemplate : String := ""
deriving DecidableEq, Repr

structure ResourceData where
  id : String := ""
  idAttr : String := ""
  teamName : String := ""
  name : String := ""
  url : String := ""
  triggerType : String := ""
  onIncidentStarted : Bool := false
  onIncidentAcknowledged : Bool := false
  onIncidentResolved : Bool := false
  template : Option templateData := none
deriving DecidableEq, Repr

/-- JSON request/response struct `customWebhookTemplateAttributes`; each
pointer field is an `Option`, `nil` slices are `[]`.  `BodyTemplate` is
`interface{}` in Go but only ever holds the configured template string. -/
structure customWebhookTemplateAttributes where
  ID : Option String := none
  HTTPMethod : Option String := none
  AuthUsername : Option String := none
  AuthPassword : Option String := none
  HeaderTemplate : List headerTemplate := []
  BodyTemplate : Option String := none
deriving DecidableEq, Repr

/-- JSON request/response struct `outgoingWebhook`. -/
structure outgoingWebhook where
  ID : Option String := none
  Name : Option String := none
  URL : Option String := none
  TriggerType : Option String := none
  OnIncidentStarted : Option Bool := none
  OnIncidentAcknowledged : Option Bool := none
  OnIncidentResolved : Option Bool := none
  CustomWebhookTemplateAttributes : Option customWebhookTemplateAttributes := none
  TeamName : Option String := none
deriving DecidableEq, Repr

/-- `outgoingWebhookHTTPResponse`: the `data.id` / `data.attributes`
envelope the API returns. -/
structure outgoingWebhookHTTPResponse where
  dataId : String
  attributes : outgoingWebhook
deriving DecidableEq, Repr

/-- `outgoingWebhookRef`: the basic-field reference list.  The Go function
returns key/pointer pairs into an `outgoingWebhook`; since the pointers are
determined by the keys, the embedding keeps the key list and dispatches on
it in `load` / `setBasic`.  The three incident flags are appended exactly
when the discriminator `triggerType` is `incident_change`. -/
def outgoingWebhookRef (triggerType : String) : List String :=
  let refs := ["id", "name", "url", "trigger_type"]
  if triggerType = "incident_change" then
    refs ++ ["on_incident_started", "on_incident_acknowledged", "on_incident_resolved"]
  else
    refs

/-- Modelled from the spec: the repository's `load` helper (defined outside
`src/`) is the record-mapper direction that "converts between the
declarative field map and a JSON request/response struct" — it copies the
declarative value `d.Get(key)` into the struct field addressed by `key`,
through the pointer handed out by `outgoingWebhookRef`. -/
def load (d : ResourceData) (k : String) (w : outgoingWebhook) : outgoingWebhook :=
  if k = "id" then { w with ID := some d.idAttr }
  else if k = "name" then { w with Name := some d.name }
  else if k = "url" then { w with URL := some d.url }
  else if k = "trigger_type" then { w with TriggerType := some d.triggerType }
  else if k = "on_incident_started" then { w with OnIncidentStarted := some d.onIncidentStarted }
  else if k = "on_incident_acknowledged" then { w with OnIncidentAcknowledged := some d.onIncidentAcknowledged }
  else if k = "on_incident_resolved" then { w with OnIncidentResolved := some d.onIncidentResolved }
  else if k = "team_name" then { w with TeamName := some d.teamName }
  else w

/-- `d.Set(key, reflect.Indirect(...))` for one basic field: a `nil`
pointer stores the schema zero value. -/
def setBasic (w : outgoingWebhook) (k : String) (d : ResourceData) : ResourceData :=
  if k = "id" then { d with idAttr := w.ID.getD "" }
  else if k = "name" then { d with name := w.Name.getD "" }
  else if k = "url" then { d with url := w.URL.getD "" }
  else if k = "trigger_type" then { d with triggerType := w.TriggerType.getD "" }
  else if k = "on_incident_started" then { d with onIncidentStarted := w.OnIncidentStarted.getD false }
  else if k = "on_incident_acknowledged" then { d with onIncidentAcknowledged := w.OnIncidentAcknowledged.getD false }
  else if k = "on_incident_resolved" then { d with onIncidentResolved := w.OnIncidentResolved.getD false }
  else d

/-- The template-block construction shared verbatim by
`outgoingWebhookCreate` and `outgoingWebhookUpdate`: each sub-attribute of
the single block item is copied into the JSON struct (`id` is computed and
never read from the configuration). -/
def templateFromAttrs (t : templateData) : customWebhookTemplateAttributes :=
  { HTTPMethod := some t.httpMethod
    AuthUsername := some t.authUsername
    AuthPassword := some t.authPassword
    HeaderTemplate := t.headersTemplate
    BodyTemplate := some t.bodyTemplate }

/-- `incidentFields` of `validateOutgoingWebhook`. -/
def incidentFields : List String :=
  ["on_incident_started", "on_incident_acknowledged", "on_incident_resolved"]

/-- `d.GetOk(field)` for one of the incident booleans followed by the
`value.(bool)` assertion: `ok && value` is simply the flag's value, since
`GetOk` reports `ok = false` exactly on the zero value `false`. -/
def getBoolField (d : ResourceData) (k : String) : Bool :=
  if k = "on_incident_started" then d.onIncidentStarted
  else if k = "on_incident_acknowledged" then d.onIncidentAcknowledged
  else if k = "on_incident_resolved" then d.onIncidentResolved
  else false

def incidentFieldErr (f : String) : String :=
  f ++ " can only be set when trigger_type is \x27incident_change\x27"

/-- `validateOutgoingWebhook` (the resource's `CustomizeDiff`): returns the
first error produced while walking `incidentFields`, or `none`. -/
def validateOutgoingWebhook (d : ResourceData) : Option String :=
  incidentFields.findSome? fun f =>
    if getBoolField d f && !(d.triggerType == "incident_change") then
      some (incidentFieldErr f)
    else
      none

/-- The request body built by `outgoingWebhookCreate`: basic fields via the
reference list, then `team_name`, then the optional template block. -/
def outgoingWebhookCreateIn (d : ResourceData) : outgoingWebhook :=
  let w := (outgoingWebhookRef d.triggerType).foldl (fun w k => load d k w) {}
  let w := load d "team_name" w
  match d.template with
  | some t => { w with CustomWebhookTemplateAttributes := some (templateFromAttrs t) }
  | none => w

/-- `outgoingWebhookCopyAttrs`: writes the response attributes back into the
declarative record — basic fields through the reference list gated on the
response's `trigger_type`, then the template block (whose `headers_template`
key is only set when the header list is non-empty; a missing key stores the
zero value, the empty list). -/
def outgoingWebhookCopyAttrs (d : ResourceData) (w : outgoingWebhook) : ResourceData :=
  let triggerType := w.TriggerType.getD ""
  let d1 := (outgoingWebhookRef triggerType).foldl (fun d k => setBasic w k d) d
  match w.CustomWebhookTemplateAttributes with
  | none => d1
  | some t =>
    { d1 with
      template := some
        { id := t.ID.getD ""
          httpMethod := t.HTTPMethod.getD ""
          authUsername := t.AuthUsername.getD ""
          authPassword := t.AuthPassword.getD ""
          headersTemplate := if t.HeaderTemplate.isEmpty then [] else t.HeaderTemplate
          bodyTemplate := t.BodyTemplate.getD "" } }

/-- `outgoingWebhookCreate` after the POST has returned `resp`
(`resourceCreate` itself lives outside `src/`; the claim under proof fixes
its outcome to an echo of the request):  `d.SetId(out.Data.ID)` followed by
`outgoingWebhookCopyAttrs(d, &out.Data.Attributes)`. -/
def outgoingWebhookCreate (d : ResourceData) (resp : outgoingWebhookHTTPResponse) :
    ResourceData :=
  outgoingWebhookCopyAttrs { d with id := resp.dataId } resp.attributes

/-- `outgoingWebhookRead`, parameterised by the outcome of `resourceRead`
(which lives outside `src/`): `.error e` is `err != nil`, `.ok none` is
`ok = false` (resource gone), `.ok (some out)` a successful GET. -/
def outgoingWebhookRead (d : ResourceData)
    (apiResult : Except String (Option outgoingWebhookHTTPResponse)) :
    ResourceData × Option String :=
  match apiResult with
  | .error e => (d, some e)
  | .ok none => ({ d with id := "" }, none)
  | .ok (some out) => (outgoingWebhookCopyAttrs d out.attributes, none)

/-- The PATCH body built by `outgoingWebhookUpdate`: a basic field is loaded
only when `d.HasChange(key)` (modelled by the `changed` predicate) reports a
change, and the template block only when it changed and is present. -/
def outgoingWebhookUpdateIn (d : ResourceData) (changed : String → Bool) :
    outgoingWebhook :=
  let w := (outgoingWebhookRef d.triggerType).foldl
    (fun w k => if changed k then load d k w else w) {}
  if changed "custom_webhook_template_attributes" then
    match d.template with
    | some t => { w with CustomWebhookTemplateAttributes := some (templateFromAttrs t) }
    | none => w
  else
    w

/-! ### Serialisation (model of `encoding/json` with `omitempty`)

Every struct field of `outgoingWebhook` carries `json:"...,omitempty"`.
For pointer fields `omitempty` drops exactly the `nil` pointers, for the
slice `HeaderTemplate` it drops the empty slice, and for the `interface{}`
body template it drops the `nil` interface. -/

def optField (k : String) : Option Json → List (String × Json)
  | none => []
  | some j => [(k, j)]

def serializeTemplate (t : customWebhookTemplateAttributes) : Json :=
  .obj (optField "id" (t.ID.map .str) ++
    optField "http_method" (t.HTTPMethod.map .str) ++
    optField "auth_username" (t.AuthUsername.map .str) ++
    optField "auth_password" (t.AuthPassword.map .str) ++
    (if t.HeaderTemplate.isEmpty then []
     else [("headers_template",
       .arr (t.HeaderTemplate.map fun h =>
         .obj [("name", .str h.Name), ("value", .str h.Value)]))]) ++
    optField "body_template" (t.BodyTemplate.map .str))

def serializeOutgoingWebhook (w : outgoingWebhook) : List (String × Json) :=
  optField "id" (w.ID.map .str) ++
  optField "name" (w.Name.map .str) ++
  optField "url" (w.URL.map .str) ++
  optField "trigger_type" (w.TriggerType.map .str) ++
  optField "on_incident_started" (w.OnIncidentStarted.map .bool) ++
  optField "on_incident_acknowledged" (w.OnIncidentAcknowledged.map .bool) ++
  optField "on_incident_resolved" (w.OnIncidentResolved.map .bool) ++
  optField "custom_webhook_template_attributes"
    (w.CustomWebhookTemplateAttributes.map serializeTemplate) ++
  optField "team_name" (w.TeamName.map .str)

/-! ### Schema (the declarative field list) -/

/-- `suppressEquivalentJSONDiffs`, the `DiffSuppressFunc` of
`body_template`.  Modelled from the spec: the helper is defined outside
`src/`; per the spec it treats "two syntactically different but semantically
equivalent values (e.g., differently formatted JSON) as unchanged" — both
strings are unmarshalled and the resulting values compared insensitively to
object-member order (whitespace disappears at parse time); strings that do
not parse are not suppressed. -/
def suppressEquivalentJSONDiffs (k old nw : String) (d : ResourceData) : Bool :=
  match jsonParse old, jsonParse nw with
  | some a, some b => jsonBeq (canon a) (canon b)
  | _, _ => false

/-- The `team_name` `DiffSuppressFunc`: suppress whenever the resource
already has an ID. -/
def teamNameDiffSuppress (k old nw : String) (d : ResourceData) : Bool :=
  d.id != ""

/-- `validation.StringInSlice([...]{...}, false)` applied to
`trigger_type`: case-sensitive membership in the three allowed values. -/
def triggerTypeValidate (s : String) : Bool :=
  ["incident_change", "on_call_change", "monitor_change"].contains s

/-- One declarative schema field (the aspects of
`*schema.Schema` the claims refer to). -/
structure schemaField where
  fieldType : String
  required : Bool := false
  optional : Bool := false
  computed : Bool := false
  forceNew : Bool := false
  sensitive : Bool := false
  defaultValue : Option String := none
  validateFunc : Option (String → Bool) := none
  diffSuppressFunc : Option (String → String → String → ResourceData → Bool) := none

def teamNameSchemaField : schemaField :=
  { fieldType := "string", optional := true,
    diffSuppressFunc := some teamNameDiffSuppress }

def triggerTypeSchemaField : schemaField :=
  { fieldType := "string", required := true, forceNew := true,
    validateFunc := some triggerTypeValidate }

def bodyTemplateSchemaField : schemaField :=
  { fieldType := "string", optional := true,
    diffSuppressFunc := some suppressEquivalentJSONDiffs }

/-- The sub-schema of `custom_webhook_template_attributes`. -/
def customWebhookTemplateSchema : List (String × schemaField) :=
  [("id", { fieldType := "string", computed := true }),
   ("http_method", { fieldType := "string", optional := true, defaultValue := some "post" }),
   ("auth_username", { fieldType := "string", optional := true }),
   ("auth_password", { fieldType := "string", optional := true, sensitive := true }),
   ("headers_template", { fieldType := "list", optional := true }),
   ("body_template", bodyTemplateSchemaField)]

/-- `outgoingWebhookSchema`. -/
def outgoingWebhookSchema : List (String × schemaField) :=
  [("team_name", teamNameSchemaField),
   ("id", { fieldType := "string", computed := true }),
   ("name", { fieldType := "string", optional := true }),
   ("url", { fieldType := "string", required := true }),
   ("trigger_type", triggerTypeSchemaField),
   ("on_incident_started", { fieldType := "bool", optional := true, defaultValue := some "false" }),
   ("on_incident_acknowledged", { fieldType := "bool", optional := true, defaultValue := some "false" }),
   ("on_incident_resolved", { fieldType := "bool", optional := true, defaultValue := some "false" }),
   ("custom_webhook_template_attributes", { fieldType := "list", optional := true })]

/-! ### The declarative projection used by the round-trip claim -/

/-- The user-settable (declarative, non-computed) part of the template
block: everything except the computed `id`. -/
structure declTemplate where
  httpMethod : String
  authUsername : String
  authPassword : String
  headersTemplate : List headerTemplate
  bodyTemplate : String
deriving DecidableEq, Repr

/-- The user-settable (declarative, non-computed) fields of the webhook
resource record. -/
structure declarativeRecord where
  teamName : String
  name : String
  url : String
  triggerType : String
  onIncidentStarted : Bool
  onIncidentAcknowledged : Bool
  onIncidentResolved : Bool
  template : Option declTemplate
deriving DecidableEq, Repr

def declTemplateOf (t : templateData) : declTemplate :=
  { httpMethod := t.httpMethod
    authUsername := t.authUsername
    authPassword := t.authPassword
    headersTemplate := t.headersTemplate
    bodyTemplate := t.bodyTemplate }

def declRecordOf (d : ResourceData) : declarativeRecord :=
  { teamName := d.teamName
    name := d.name
    url := d.url
    triggerType := d.triggerType
    onIncidentStarted := d.onIncidentStarted
    onIncidentAcknowledged := d.onIncidentAcknowledged
    onIncidentResolved := d.onIncidentResolved
    template := d.template.map declTemplateOf }

/-! ## The monitoring-IP data lookup (src/internal/provider/data_ip_list.go) -/

/-- A user-visible diagnostic.  `fromErr` models `diag.FromErr(err)`;
`httpStatus url status body` models
`diag.Errorf("GET %s returned %d: %s", res.Request.URL.String(),
res.StatusCode, string(body))` — the constructor carries exactly the
request URL, the status code and the response body. -/
inductive Diag where
  | fromErr (msg : String)
  | httpStatus (url : String) (status : Nat) (body : String)
deriving DecidableEq, Repr

/-- The text of a diagnostic, for reference: `httpStatus` renders through
the `"GET %s returned %d: %s"` format string. -/
def Diag.render : Diag → String
  | .fromErr msg => msg
  | .httpStatus url status body =>
    "GET " ++ url ++ " returned " ++ toString status ++ ": " ++ body

/-- Outcome of `meta.(*client).Get(ctx, "/ips-by-cluster.json")` (the
client lives outside `src/`): either a transport error or a response with
its request URL, status code and body. -/
inductive HTTPResult where
  | transportError (msg : String)
  | response (url : String) (status : Nat) (body : String)

/-- `json.Unmarshal(body, &ipData)` for `map[string][]string`: every value
must be an array of strings. -/
def jsonStringList : Json → Option (List String)
  | .arr xs =>
    xs.foldr
      (fun x acc =>
        match x, acc with
        | .str s, some l => some (s :: l)
        | _, _ => none)
      (some [])
  | _ => none

def jsonToIpMap : Json → Option (List (String × List String))
  | .obj es =>
    es.foldr
      (fun e acc =>
        match jsonStringList e.2, acc with
        | some l, some m => some ((e.1, l) :: m)
        | _, _ => none)
      (some [])
  | _ => none

def parseIpMap (body : String) : Option (List (String × List String)) :=
  (jsonParse body).bind jsonToIpMap

/-- The filtering loop of `ipListLookup`: one pass over the cluster → IPs
map appending matching clusters' IPs to `filteredIPs` and every cluster
name to `allClusters`.  `filterClusters` is the user's `filter_clusters`
list (the Go code turns it into a set; emptiness and membership agree). -/
def ipListFilterLoop (filterClusters : List String) :
    List (String × List String) → List String × List String
  | [] => ([], [])
  | (cluster, ips) :: rest =>
    let (fIPs, clusters) := ipListFilterLoop filterClusters rest
    ((if filterClusters.isEmpty || filterClusters.contains cluster then ips ++ fIPs
      else fIPs),
     cluster :: clusters)

/-- The state stored by the data source on success. -/
structure IpListState where
  id : String
  ips : List String
  allClusters : List String
deriving DecidableEq, Repr

/-- `ipListLookup`, parameterised by the HTTP outcome: transport errors are
surfaced via `diag.FromErr`; a status code other than exactly 200
(`http.StatusOK`) is surfaced via `diag.Errorf` with URL, status and body;
otherwise the body is unmarshalled, filtered and stored. -/
def ipListLookup (res : HTTPResult) (filterClusters : List String) :
    Except Diag IpListState :=
  match res with
  | .transportError msg => .error (.fromErr msg)
  | .response url status body =>
    if status ≠ 200 then .error (.httpStatus url status body)
    else
      match parseIpMap body with
      | none => .error (.fromErr "json unmarshal error")
      | some ipData =>
        let (fIPs, clusters) := ipListFilterLoop filterClusters ipData
        .ok { id := "betterstack_ip_list", ips := fIPs, allClusters := clusters }

/-- A concrete valid resource record used to witness the round-trip
property. -/
def roundtripSample : ResourceData :=
  { teamName := "Ops", name := "Hook", url := "https://example.com/hook",
    triggerType := "incident_change", onIncidentStarted := true,
    onIncidentResolved := true,
    template := some
      { authUsername := "user", authPassword := "pw",
        headersTemplate := [{ Name := "X-Env", Value := "prod" }],
        bodyTemplate := "\x7b\"incident\":1\x7d" } }

/-! ## Theorems -/

/-! ### JSON canonicalisation lemmas -/

theorem equivEntries_keys : ∀ es ms : List (String × Json),
    JsonEquivEntries es ms → es.map Prod.fst = ms.map Prod.fst := by
  intro es
  induction es with
  | nil =>
    intro ms h
    cases ms with
    | nil => rfl
    | cons b t => simp [JsonEquivEntries] at h
  | cons a t ih =>
    intro ms h
    obtain ⟨k, v⟩ := a
    cases ms with
    | nil => simp [JsonEquivEntries] at h
    | cons b t2 =>
      obtain ⟨l, w⟩ := b
      simp only [JsonEquivEntries] at h
      obtain ⟨hk, _, ht⟩ := h
      simp [hk, ih t2 ht]

theorem canonEntries_map : ∀ es : List (String × Json),
    canonEntries es = es.map (fun p => (p.1, canon p.2)) := by
  intro es
  induction es with
  | nil => simp [canonEntries]
  | cons a t ih =>
    obtain ⟨k, v⟩ := a
    simp [canonEntries, ih]

theorem canonEntries_keys (es : List (String × Json)) :
    (canonEntries es).map Prod.fst = es.map Prod.fst := by
  rw [canonEntries_map]
  simp

/-- Two mutually permuted key-sorted association lists with duplicate-free
keys are equal. -/
theorem sorted_keyLe_nodup_perm_eq : ∀ l1 l2 : List (String × Json),
    l1.Perm l2 → l1.Sorted keyLe → l2.Sorted keyLe →
    (l1.map Prod.fst).Nodup → l1 = l2 := by
  intro l1
  induction l1 with
  | nil =>
    intro l2 hp _ _ _
    exact hp.nil_eq
  | cons a t1 ih =>
    intro l2 hp hs1 hs2 hnd
    cases l2 with
    | nil => exact absurd hp.eq_nil (by simp)
    | cons b t2 =>
      have hab : a = b := by
        rcases List.mem_cons.mp (hp.subset (List.mem_cons_self a t1)) with h | hmem
        · exact h
        · rcases List.mem_cons.mp (hp.symm.subset (List.mem_cons_self b t2)) with h' | hbt
          · exact h'.symm
          · exfalso
            have h1 : keyLe a b := (List.sorted_cons.mp hs1).1 b hbt
            have h2 : keyLe b a := (List.sorted_cons.mp hs2).1 a hmem
            have hk : a.1 = b.1 := le_antisymm h1 h2
            have hmem' : a.1 ∈ t1.map Prod.fst := by
              rw [hk]
              exact List.mem_map_of_mem Prod.fst hbt
            have hnd' : (a.1 :: t1.map Prod.fst).Nodup := by simpa using hnd
            exact (List.nodup_cons.mp hnd').1 hmem'
      subst hab
      have htail := ih t2 hp.cons_inv (List.sorted_cons.mp hs1).2
        (List.sorted_cons.mp hs2).2
        (by
          have hnd' : (a.1 :: t1.map Prod.fst).Nodup := by simpa using hnd
          exact (List.nodup_cons.mp hnd').2)
      rw [htail]

theorem insertionSort_keyLe_perm_nodup (l1 l2 : List (String × Json))
    (hp : l1.Perm l2) (hnd : (l1.map Prod.fst).Nodup) :
    List.insertionSort keyLe l1 = List.insertionSort keyLe l2 := by
  apply sorted_keyLe_nodup_perm_eq
  · exact (List.perm_insertionSort keyLe l1).trans
      (hp.trans (List.perm_insertionSort keyLe l2).symm)
  · exact List.sorted_insertionSort keyLe l1
  · exact List.sorted_insertionSort keyLe l2
  · exact (((List.perm_insertionSort keyLe l1).map Prod.fst).symm).nodup hnd

/-- Canonicalisation is invariant under `JsonEquiv` (proved by strong
induction on the size of the value, jointly with the list and entry-list
forms). -/
theorem canon_eq_fuel : ∀ n : Nat,
    (∀ a b : Json, sizeOf a ≤ n → JsonEquiv a b → canon a = canon b) ∧
    (∀ xs ys : List Json, sizeOf xs ≤ n → JsonEquivList xs ys →
      canonList xs = canonList ys) ∧
    (∀ es fs : List (String × Json), sizeOf es ≤ n → JsonEquivEntries es fs →
      canonEntries es = canonEntries fs) := by
  intro n
  induction n with
  | zero =>
    refine ⟨?_, ?_, ?_⟩
    · intro a b hs _
      exfalso
      cases a <;> simp at hs
    · intro xs ys hs _
      exfalso
      cases xs <;> simp at hs
    · intro es fs hs _
      exfalso
      cases es <;> simp at hs
  | succ n ih =>
    obtain ⟨ihJ, ihL, ihE⟩ := ih
    refine ⟨?_, ?_, ?_⟩
    · intro a b hs h
      cases a <;> cases b <;> simp only [JsonEquiv] at h <;> try exact absurd h id
      case null.null => rfl
      case bool.bool => rw [h]
      case num.num => rw [h]
      case str.str => rw [h]
      case arr.arr xs ys =>
        have hxs : sizeOf xs ≤ n := by simp at hs; omega
        simp only [canon]
        rw [ihL xs ys hxs h]
      case obj.obj es fs =>
        obtain ⟨hnd, ms, hems, hperm⟩ := h
        have hes : sizeOf es ≤ n := by simp at hs; omega
        simp only [canon]
        rw [ihE es ms hes hems]
        congr 1
        apply insertionSort_keyLe_perm_nodup
        · rw [canonEntries_map, canonEntries_map]
          exact hperm.map _
        · rw [canonEntries_keys, ← equivEntries_keys es ms hems]
          exact hnd
    · intro xs ys hs h
      cases xs <;> cases ys <;> simp only [JsonEquivList] at h <;>
        try exact absurd h id
      case nil.nil => rfl
      case cons.cons x xs' y ys' =>
        have h1 : sizeOf x ≤ n := by simp at hs; omega
        have h2 : sizeOf xs' ≤ n := by simp at hs; omega
        simp only [canonList]
        rw [ihJ x y h1 h.1, ihL xs' ys' h2 h.2]
    · intro es fs hs h
      cases es with
      | nil =>
        cases fs with
        | nil => rfl
        | cons b t => simp only [JsonEquivEntries] at h
      | cons a t =>
        obtain ⟨k, v⟩ := a
        cases fs with
        | nil => simp only [JsonEquivEntries] at h
        | cons b t2 =>
          obtain ⟨l, w⟩ := b
          simp only [JsonEquivEntries] at h
          obtain ⟨hk, hv, ht⟩ := h
          have h1 : sizeOf v ≤ n := by simp at hs; omega
          have h2 : sizeOf t ≤ n := by simp at hs; omega
          simp only [canonEntries]
          rw [hk, ihJ v w h1 hv, ihE t t2 h2 ht]

/-- Canonicalisation maps `JsonEquiv`-equivalent values to equal values. -/
theorem canon_eq_of_jsonEquiv {a b : Json} (h : JsonEquiv a b) :
    canon a = canon b :=
  (canon_eq_fuel (sizeOf a)).1 a b le_rfl h

/-- `jsonBeq` is reflexive. -/
theorem jsonBeq_refl_fuel : ∀ n : Nat,
    (∀ a : Json, sizeOf a ≤ n → jsonBeq a a = true) ∧
    (∀ xs : List Json, sizeOf xs ≤ n → jsonBeqList xs xs = true) ∧
    (∀ es : List (String × Json), sizeOf es ≤ n → jsonBeqEntries es es = true) := by
  intro n
  induction n with
  | zero =>
    refine ⟨?_, ?_, ?_⟩
    · intro a hs
      exfalso
      cases a <;> simp at hs
    · intro xs hs
      exfalso
      cases xs <;> simp at hs
    · intro es hs
      exfalso
      cases es <;> simp at hs
  | succ n ih =>
    obtain ⟨ihJ, ihL, ihE⟩ := ih
    refine ⟨?_, ?_, ?_⟩
    · intro a hs
      cases a <;> simp only [jsonBeq]
      case bool b => simp
      case num m => simp
      case str s => simp
      case arr xs =>
        exact ihL xs (by simp at hs; omega)
      case obj es =>
        exact ihE es (by simp at hs; omega)
    · intro xs hs
      cases xs with
      | nil => simp only [jsonBeqList]
      | cons x xs' =>
        simp only [jsonBeqList, Bool.and_eq_true]
        exact ⟨ihJ x (by simp at hs; omega), ihL xs' (by simp at hs; omega)⟩
    · intro es hs
      cases es with
      | nil => simp only [jsonBeqEntries]
      | cons a t =>
        obtain ⟨k, v⟩ := a
        simp only [jsonBeqEntries, Bool.and_eq_true]
        exact ⟨⟨by simp, ihJ v (by simp at hs; omega)⟩,
          ihE t (by simp at hs; omega)⟩

theorem jsonBeq_refl (a : Json) : jsonBeq a a = true :=
  (jsonBeq_refl_fuel (sizeOf a)).1 a le_rfl

/-! ### C5: the reference list gates the incident flags on the discriminator -/

/-- C5: the field list produced by `outgoingWebhookRef` always contains
`id`, `name`, `url` and `trigger_type`, and contains each of
`on_incident_started`, `on_incident_acknowledged`, `on_incident_resolved`
exactly when the discriminator `triggerType` equals `incident_change`;
hence create/update payloads and read-back copying touch the incident flags
only under that discriminator value. -/
theorem outgoingWebhookRef_gates_incident_flags (t : String) :
    "id" ∈ outgoingWebhookRef t ∧ "name" ∈ outgoingWebhookRef t ∧
    "url" ∈ outgoingWebhookRef t ∧ "trigger_type" ∈ outgoingWebhookRef t ∧
    ("on_incident_started" ∈ outgoingWebhookRef t ↔ t = "incident_change") ∧
    ("on_incident_acknowledged" ∈ outgoingWebhookRef t ↔ t = "incident_change") ∧
    ("on_incident_resolved" ∈ outgoingWebhookRef t ↔ t = "incident_change") := by
  by_cases h : t = "incident_change" <;> simp [outgoingWebhookRef, h]

/-- Witness for C5 at concrete trigger types. -/
theorem outgoingWebhookRef_gates_incident_flags_witness :
    "url" ∈ outgoingWebhookRef "monitor_change" ∧
    "on_incident_started" ∉ outgoingWebhookRef "monitor_change" ∧
    "on_incident_started" ∈ outgoingWebhookRef "incident_change" :=
  ⟨(outgoingWebhookRef_gates_incident_flags "monitor_change").2.2.1,
   fun hmem => by
     have h :=
       ((outgoingWebhookRef_gates_incident_flags "monitor_change").2.2.2.2.1).mp hmem
     exact absurd h (by decide),
   ((outgoingWebhookRef_gates_incident_flags "incident_change").2.2.2.2.1).mpr rfl⟩

/-! ### C6: the trigger_type schema entry -/

/-- C6: `trigger_type` is in the schema as a required, `ForceNew` field
whose validator accepts exactly the strings `incident_change`,
`on_call_change` and `monitor_change`. -/
theorem triggerType_schema_enum :
    ("trigger_type", triggerTypeSchemaField) ∈ outgoingWebhookSchema ∧
    triggerTypeSchemaField.required = true ∧
    triggerTypeSchemaField.forceNew = true ∧
    triggerTypeSchemaField.validateFunc = some triggerTypeValidate ∧
    (∀ s : String, triggerTypeValidate s = true ↔
      s = "incident_change" ∨ s = "on_call_change" ∨ s = "monitor_change") := by
  refine ⟨?_, rfl, rfl, rfl, ?_⟩
  · simp [outgoingWebhookSchema]
  · intro s
    simp [triggerTypeValidate]

/-- Witness for C6: one accepted and one rejected validator input. -/
theorem triggerType_schema_enum_witness :
    triggerTypeValidate "on_call_change" = true ∧
    triggerTypeValidate "bogus_change" ≠ true :=
  ⟨(triggerType_schema_enum.2.2.2.2 "on_call_change").mpr (Or.inr (Or.inl rfl)),
   fun h => by
     have h2 := (triggerType_schema_enum.2.2.2.2 "bogus_change").mp h
     rcases h2 with h2 | h2 | h2 <;> exact absurd h2 (by decide)⟩

/-! ### C10: team_name diffs are suppressed once the resource exists -/

/-- C10: the `team_name` schema entry carries `teamNameDiffSuppress`, which
returns `true` whenever the resource ID is non-empty, so `team_name`
differences never produce a diff after creation. -/
theorem teamName_diff_suppressed_after_creation :
    ("team_name", teamNameSchemaField) ∈ outgoingWebhookSchema ∧
    teamNameSchemaField.diffSuppressFunc = some teamNameDiffSuppress ∧
    (∀ (k old nw : String) (d : ResourceData), d.id ≠ "" →
      teamNameDiffSuppress k old nw d = true) := by
  refine ⟨?_, rfl, ?_⟩
  · simp [outgoingWebhookSchema]
  · intro k old nw d h
    simpa [teamNameDiffSuppress] using h

/-- Witness for C10 on a created resource (non-empty ID). -/
theorem teamName_diff_suppressed_after_creation_witness :
    teamNameDiffSuppress "team_name" "old-team" "new-team"
      { id := "123456", url := "https://example.com", triggerType := "monitor_change" } = true :=
  teamName_diff_suppressed_after_creation.2.2 "team_name" "old-team" "new-team"
    { id := "123456", url := "https://example.com", triggerType := "monitor_change" }
    (by decide)

/-! ### C8: reading a vanished resource clears the ID and nothing else -/

/-- C8: when `resourceRead` reports the resource gone (`ok = false`),
`outgoingWebhookRead` clears the resource ID, returns no error, and leaves
every other stored field unmodified. -/
theorem read_gone_clears_id (d : ResourceData) :
    outgoingWebhookRead d (.ok none) = ({ d with id := "" }, none) ∧
    (outgoingWebhookRead d (.ok none)).1.id = "" ∧
    (outgoingWebhookRead d (.ok none)).2 = none ∧
    (outgoingWebhookRead d (.ok none)).1.idAttr = d.idAttr ∧
    (outgoingWebhookRead d (.ok none)).1.teamName = d.teamName ∧
    (outgoingWebhookRead d (.ok none)).1.name = d.name ∧
    (outgoingWebhookRead d (.ok none)).1.url = d.url ∧
    (outgoingWebhookRead d (.ok none)).1.triggerType = d.triggerType ∧
    (outgoingWebhookRead d (.ok none)).1.onIncidentStarted = d.onIncidentStarted ∧
    (outgoingWebhookRead d (.ok none)).1.onIncidentAcknowledged = d.onIncidentAcknowledged ∧
    (outgoingWebhookRead d (.ok none)).1.onIncidentResolved = d.onIncidentResolved ∧
    (outgoingWebhookRead d (.ok none)).1.template = d.template :=
  ⟨rfl, rfl, rfl, rfl, rfl, rfl, rfl, rfl, rfl, rfl, rfl, rfl⟩

/-! ### C4: HTTP error surfacing in the IP-list lookup (corrected) -/

/-- C4 counterexample: `201 Created` is a 2xx status code, yet
`ipListLookup` reports an HTTP-status diagnostic for it, because the code
compares the status against exactly `http.StatusOK` (200).  This refutes
the claim's "conversely, for a 2xx response the operation does not report
an HTTP-status error". -/
theorem ipList_2xx_non200_still_errors :
    ipListLookup
      (.response "https://uptime.betterstack.com/ips-by-cluster.json" 201 "\x7b\x7d") [] =
    .error (.httpStatus "https://uptime.betterstack.com/ips-by-cluster.json" 201 "\x7b\x7d") :=
  rfl

/-- C4 (amended): every response with status code other than exactly 200 is
surfaced as a diagnostic carrying the request URL, the status code and the
response body (rendered through `"GET %s returned %d: %s"`); a transport
error is surfaced as a diagnostic carrying the error message; and for a 200
response no HTTP-status diagnostic is ever reported.  (No retry exists in
the model: the lookup is a single evaluation of the one response.) -/
theorem ipList_http_error_surface (u : String) (s : Nat) (body msg : String)
    (req : List String) :
    (s ≠ 200 → ipListLookup (.response u s body) req = .error (.httpStatus u s body)) ∧
    ipListLookup (.transportError msg) req = .error (.fromErr msg) ∧
    Diag.render (.httpStatus u s body) =
      "GET " ++ u ++ " returned " ++ toString s ++ ": " ++ body ∧
    (s = 200 → ∀ (u2 : String) (s2 : Nat) (b2 : String),
      ipListLookup (.response u s body) req ≠ .error (.httpStatus u2 s2 b2)) := by
  refine ⟨?_, rfl, rfl, ?_⟩
  · intro h
    simp [ipListLookup, h]
  · intro h u2 s2 b2
    subst h
    cases hp : parseIpMap body with
    | none => simp [ipListLookup, hp]
    | some m => simp [ipListLookup, hp]

/-- Witness for C4 (amended) at a concrete non-200 status. -/
theorem ipList_http_error_surface_witness :
    ipListLookup (.response "https://uptime.betterstack.com/ips-by-cluster.json" 404 "not found") [] =
      .error (.httpStatus "https://uptime.betterstack.com/ips-by-cluster.json" 404 "not found") ∧
    ipListLookup
      (.response "https://uptime.betterstack.com/ips-by-cluster.json" 200 "\x7b\x7d") [] ≠
      .error (.httpStatus "https://uptime.betterstack.com/ips-by-cluster.json" 200 "\x7b\x7d") :=
  ⟨(ipList_http_error_surface "https://uptime.betterstack.com/ips-by-cluster.json" 404
      "not found" "err" []).1 (by decide),
   (ipList_http_error_surface "https://uptime.betterstack.com/ips-by-cluster.json" 200
      "\x7b\x7d" "err" []).2.2.2 rfl "https://uptime.betterstack.com/ips-by-cluster.json"
      200 "\x7b\x7d"⟩

/-! ### C2: plan-time validation of the incident flags -/

/-- C2: `validateOutgoingWebhook` returns no error when `trigger_type` is
`incident_change` or when none of the three incident booleans is set, and
when some incident boolean is set while `trigger_type` is different it
returns the descriptive error naming an offending (set) field. -/
theorem validate_incident_flags (d : ResourceData) :
    (d.triggerType = "incident_change" → validateOutgoingWebhook d = none) ∧
    (d.onIncidentStarted = false ∧ d.onIncidentAcknowledged = false ∧
        d.onIncidentResolved = false →
      validateOutgoingWebhook d = none) ∧
    (d.triggerType ≠ "incident_change" →
      ∀ f ∈ incidentFields, getBoolField d f = true →
        ∃ g ∈ incidentFields, getBoolField d g = true ∧
          validateOutgoingWebhook d = some (incidentFieldErr g)) := by
  refine ⟨?_, ?_, ?_⟩
  · intro h
    simp [validateOutgoingWebhook, incidentFields, h]
  · rintro ⟨h1, h2, h3⟩
    simp [validateOutgoingWebhook, incidentFields, getBoolField, h1, h2, h3]
  · intro ht f hf hb
    by_cases h1 : d.onIncidentStarted
    · exact ⟨"on_incident_started", by simp [incidentFields],
        by simp [getBoolField, h1],
        by simp [validateOutgoingWebhook, incidentFields, getBoolField, h1, ht]⟩
    · by_cases h2 : d.onIncidentAcknowledged
      · exact ⟨"on_incident_acknowledged", by simp [incidentFields],
          by simp [getBoolField, h2],
          by simp [validateOutgoingWebhook, incidentFields, getBoolField, h1, h2, ht]⟩
      · by_cases h3 : d.onIncidentResolved
        · exact ⟨"on_incident_resolved", by simp [incidentFields],
            by simp [getBoolField, h3],
            by simp [validateOutgoingWebhook, incidentFields, getBoolField, h1, h2, h3, ht]⟩
        · exfalso
          simp only [incidentFields, List.mem_cons, List.not_mem_nil, or_false] at hf
          rcases hf with rfl | rfl | rfl <;>
            simp [getBoolField, h1, h2, h3] at hb

/-- Witness for C2: a record rejected with the error naming the offending
field, and a record with `trigger_type = incident_change` that passes. -/
theorem validate_incident_flags_witness :
    validateOutgoingWebhook
      { url := "https://example.com", triggerType := "incident_change",
        onIncidentStarted := true } = none ∧
    (∃ g ∈ incidentFields,
      getBoolField
        { url := "https://example.com", triggerType := "monitor_change",
          onIncidentResolved := true } g = true ∧
      validateOutgoingWebhook
        { url := "https://example.com", triggerType := "monitor_change",
          onIncidentResolved := true } = some (incidentFieldErr g)) :=
  ⟨(validate_incident_flags _).1 rfl,
   (validate_incident_flags
      { url := "https://example.com", triggerType := "monitor_change",
        onIncidentResolved := true }).2.2 (by decide)
     "on_incident_resolved" (by decide) (by decide)⟩

/-! ### C3: the cluster filter of the IP lookup -/

/-- One-pass characterisation of the filtering loop: the collected IPs are
the concatenation of the IP lists of the clusters passing the filter, and
`allClusters` is the list of every cluster name in the response map. -/
theorem ipListFilterLoop_spec (req : List String) :
    ∀ data : List (String × List String),
      (ipListFilterLoop req data).1 =
        ((data.filter fun e => req.isEmpty || req.contains e.1).map Prod.snd).flatten ∧
      (ipListFilterLoop req data).2 = data.map Prod.fst := by
  intro data
  induction data with
  | nil => simp [ipListFilterLoop]
  | cons e rest ih =>
    obtain ⟨c, ips⟩ := e
    by_cases hp : req = [] ∨ c ∈ req
    · have hb : (req.isEmpty || req.contains c) = true := by
        rcases hp with rfl | hc
        · simp
        · simp [hc]
      simp [ipListFilterLoop, List.filter_cons, hb, hp, ih.1, ih.2]
    · rw [not_or] at hp
      have hb : (req.isEmpty || req.contains c) = false := by
        simp [List.isEmpty_iff, hp.1, hp.2]
      simp [ipListFilterLoop, List.filter_cons, hb, not_or, hp.1, hp.2, ih.1, ih.2]

/-- C3: with an empty `filter_clusters` the `ips` output is the
concatenation of every cluster's IP list; in general an IP is collected iff
it belongs to some cluster passing the filter (every cluster when the
filter is empty, exactly the named clusters otherwise); and `all_clusters`
is exactly the list of cluster names in the response map. -/
theorem ipList_filter_spec (data : List (String × List String)) (req : List String) :
    (ipListFilterLoop req data).2 = data.map Prod.fst ∧
    (req = [] → (ipListFilterLoop req data).1 = (data.map Prod.snd).flatten) ∧
    (∀ x, x ∈ (ipListFilterLoop req data).1 ↔
      ∃ c ips, (c, ips) ∈ data ∧ (req = [] ∨ c ∈ req) ∧ x ∈ ips) := by
  refine ⟨(ipListFilterLoop_spec req data).2, ?_, ?_⟩
  · intro h
    subst h
    rw [(ipListFilterLoop_spec [] data).1]
    simp
  · intro x
    rw [(ipListFilterLoop_spec req data).1]
    simp only [List.mem_flatten, List.mem_map, List.mem_filter]
    constructor
    · rintro ⟨l, ⟨⟨c, ips⟩, ⟨hmem, hcond⟩, rfl⟩, hx⟩
      refine ⟨c, ips, hmem, ?_, hx⟩
      rcases Bool.or_eq_true .. |>.mp hcond with hemp | hcont
      · exact Or.inl (List.isEmpty_iff.mp hemp)
      · exact Or.inr (by simpa using hcont)
    · rintro ⟨c, ips, hmem, hcond, hx⟩
      refine ⟨ips, ⟨⟨c, ips⟩, ⟨hmem, ?_⟩, rfl⟩, hx⟩
      rcases hcond with rfl | hc
      · simp
      · simp [hc]

/-- Witness for C3 on a concrete two-cluster map. -/
theorem ipList_filter_spec_witness :
    (ipListFilterLoop ["us"] [("eu", ["1.1.1.1"]), ("us", ["2.2.2.2"])]).2 =
      ["eu", "us"] ∧
    (ipListFilterLoop [] [("eu", ["1.1.1.1"]), ("us", ["2.2.2.2"])]).1 =
      ["1.1.1.1", "2.2.2.2"] ∧
    ("2.2.2.2" ∈ (ipListFilterLoop ["us"] [("eu", ["1.1.1.1"]), ("us", ["2.2.2.2"])]).1) :=
  ⟨(ipList_filter_spec [("eu", ["1.1.1.1"]), ("us", ["2.2.2.2"])] ["us"]).1,
   by
     have h := (ipList_filter_spec [("eu", ["1.1.1.1"]), ("us", ["2.2.2.2"])] []).2.1 rfl
     simpa using h,
   ((ipList_filter_spec [("eu", ["1.1.1.1"]), ("us", ["2.2.2.2"])] ["us"]).2.2
       "2.2.2.2").mpr
     ⟨"us", ["2.2.2.2"], by decide, Or.inr (by decide), by decide⟩⟩

/-! ### C9: updates only send changed basic fields -/

theorem pair_mem_optField (x : String) (j : Json) (k : String) (v : Option Json) :
    (x, j) ∈ optField k v ↔ x = k ∧ v = some j := by
  cases v <;> simp [optField, eq_comm]

/-- A `nil` struct field's key is absent from the serialised payload
(`omitempty`): one statement per basic field. -/
theorem nil_field_key_omitted (w : outgoingWebhook) :
    (w.ID = none → "id" ∉ (serializeOutgoingWebhook w).map Prod.fst) ∧
    (w.Name = none → "name" ∉ (serializeOutgoingWebhook w).map Prod.fst) ∧
    (w.URL = none → "url" ∉ (serializeOutgoingWebhook w).map Prod.fst) ∧
    (w.TriggerType = none →
      "trigger_type" ∉ (serializeOutgoingWebhook w).map Prod.fst) ∧
    (w.OnIncidentStarted = none →
      "on_incident_started" ∉ (serializeOutgoingWebhook w).map Prod.fst) ∧
    (w.OnIncidentAcknowledged = none →
      "on_incident_acknowledged" ∉ (serializeOutgoingWebhook w).map Prod.fst) ∧
    (w.OnIncidentResolved = none →
      "on_incident_resolved" ∉ (serializeOutgoingWebhook w).map Prod.fst) := by
  refine ⟨fun hf => ?_, fun hf => ?_, fun hf => ?_, fun hf => ?_, fun hf => ?_,
    fun hf => ?_, fun hf => ?_⟩ <;>
    simp [serializeOutgoingWebhook, pair_mem_optField, hf]

theorem updateIn_ID_none (d : ResourceData) (changed : String → Bool)
    (h : changed "id" = false) : (outgoingWebhookUpdateIn d changed).ID = none := by
  unfold outgoingWebhookUpdateIn outgoingWebhookRef
  by_cases ht : d.triggerType = "incident_change" <;>
    cases hdt : d.template <;>
      simp [ht, hdt, h, load, List.foldl_cons, List.foldl_nil,
        apply_ite (f := outgoingWebhook.ID)]

theorem updateIn_Name_none (d : ResourceData) (changed : String → Bool)
    (h : changed "name" = false) : (outgoingWebhookUpdateIn d changed).Name = none := by
  unfold outgoingWebhookUpdateIn outgoingWebhookRef
  by_cases ht : d.triggerType = "incident_change" <;>
    cases hdt : d.template <;>
      simp [ht, hdt, h, load, List.foldl_cons, List.foldl_nil,
        apply_ite (f := outgoingWebhook.Name)]

theorem updateIn_URL_none (d : ResourceData) (changed : String → Bool)
    (h : changed "url" = false) : (outgoingWebhookUpdateIn d changed).URL = none := by
  unfold outgoingWebhookUpdateIn outgoingWebhookRef
  by_cases ht : d.triggerType = "incident_change" <;>
    cases hdt : d.template <;>
      simp [ht, hdt, h, load, List.foldl_cons, List.foldl_nil,
        apply_ite (f := outgoingWebhook.URL)]

theorem updateIn_TriggerType_none (d : ResourceData) (changed : String → Bool)
    (h : changed "trigger_type" = false) :
    (outgoingWebhookUpdateIn d changed).TriggerType = none := by
  unfold outgoingWebhookUpdateIn outgoingWebhookRef
  by_cases ht : d.triggerType = "incident_change" <;>
    cases hdt : d.template <;>
      simp [ht, hdt, h, load, List.foldl_cons, List.foldl_nil,
        apply_ite (f := outgoingWebhook.TriggerType)]

theorem updateIn_Started_none (d : ResourceData) (changed : String → Bool)
    (h : changed "on_incident_started" = false) :
    (outgoingWebhookUpdateIn d changed).OnIncidentStarted = none := by
  unfold outgoingWebhookUpdateIn outgoingWebhookRef
  by_cases ht : d.triggerType = "incident_change" <;>
    cases hdt : d.template <;>
      simp [ht, hdt, h, load, List.foldl_cons, List.foldl_nil,
        apply_ite (f := outgoingWebhook.OnIncidentStarted)]

theorem updateIn_Acknowledged_none (d : ResourceData) (changed : String → Bool)
    (h : changed "on_incident_acknowledged" = false) :
    (outgoingWebhookUpdateIn d changed).OnIncidentAcknowledged = none := by
  unfold outgoingWebhookUpdateIn outgoingWebhookRef
  by_cases ht : d.triggerType = "incident_change" <;>
    cases hdt : d.template <;>
      simp [ht, hdt, h, load, List.foldl_cons, List.foldl_nil,
        apply_ite (f := outgoingWebhook.OnIncidentAcknowledged)]

theorem updateIn_Resolved_none (d : ResourceData) (changed : String → Bool)
    (h : changed "on_incident_resolved" = false) :
    (outgoingWebhookUpdateIn d changed).OnIncidentResolved = none := by
  unfold outgoingWebhookUpdateIn outgoingWebhookRef
  by_cases ht : d.triggerType = "incident_change" <;>
    cases hdt : d.template <;>
      simp [ht, hdt, h, load, List.foldl_cons, List.foldl_nil,
        apply_ite (f := outgoingWebhook.OnIncidentResolved)]

/-- The incident flags are never loaded into the PATCH body when the
discriminator differs from `incident_change`, changed or not. -/
theorem updateIn_flags_none_of_trigger (d : ResourceData) (changed : String → Bool)
    (ht : d.triggerType ≠ "incident_change") :
    (outgoingWebhookUpdateIn d changed).OnIncidentStarted = none ∧
    (outgoingWebhookUpdateIn d changed).OnIncidentAcknowledged = none ∧
    (outgoingWebhookUpdateIn d changed).OnIncidentResolved = none := by
  unfold outgoingWebhookUpdateIn outgoingWebhookRef
  refine ⟨?_, ?_, ?_⟩ <;>
    cases hdt : d.template <;>
      simp [ht, hdt, load, List.foldl_cons, List.foldl_nil,
        apply_ite (f := outgoingWebhook.OnIncidentStarted),
        apply_ite (f := outgoingWebhook.OnIncidentAcknowledged),
        apply_ite (f := outgoingWebhook.OnIncidentResolved)]

/-- C9: the PATCH body of `outgoingWebhookUpdate` includes a basic field
(`id`, `name`, `url`, `trigger_type`, and — when `trigger_type` is
`incident_change` — the incident flags) only if that field changed;
unchanged basic fields remain `nil` pointers and are omitted from the
serialised payload by `omitempty`, and the incident flags are omitted
whenever the discriminator differs from `incident_change`. -/
theorem update_sends_only_changed_basic_fields (d : ResourceData)
    (changed : String → Bool) :
    (changed "id" = false → (outgoingWebhookUpdateIn d changed).ID = none ∧
      "id" ∉ (serializeOutgoingWebhook (outgoingWebhookUpdateIn d changed)).map Prod.fst) ∧
    (changed "name" = false → (outgoingWebhookUpdateIn d changed).Name = none ∧
      "name" ∉ (serializeOutgoingWebhook (outgoingWebhookUpdateIn d changed)).map Prod.fst) ∧
    (changed "url" = false → (outgoingWebhookUpdateIn d changed).URL = none ∧
      "url" ∉ (serializeOutgoingWebhook (outgoingWebhookUpdateIn d changed)).map Prod.fst) ∧
    (changed "trigger_type" = false →
      (outgoingWebhookUpdateIn d changed).TriggerType = none ∧
      "trigger_type" ∉
        (serializeOutgoingWebhook (outgoingWebhookUpdateIn d changed)).map Prod.fst) ∧
    (changed "on_incident_started" = false →
      (outgoingWebhookUpdateIn d changed).OnIncidentStarted = none ∧
      "on_incident_started" ∉
        (serializeOutgoingWebhook (outgoingWebhookUpdateIn d changed)).map Prod.fst) ∧
    (changed "on_incident_acknowledged" = false →
      (outgoingWebhookUpdateIn d changed).OnIncidentAcknowledged = none ∧
      "on_incident_acknowledged" ∉
        (serializeOutgoingWebhook (outgoingWebhookUpdateIn d changed)).map Prod.fst) ∧
    (changed "on_incident_resolved" = false →
      (outgoingWebhookUpdateIn d changed).OnIncidentResolved = none ∧
      "on_incident_resolved" ∉
        (serializeOutgoingWebhook (outgoingWebhookUpdateIn d changed)).map Prod.fst) ∧
    (d.triggerType ≠ "incident_change" →
      (outgoingWebhookUpdateIn d changed).OnIncidentStarted = none ∧
      (outgoingWebhookUpdateIn d changed).OnIncidentAcknowledged = none ∧
      (outgoingWebhookUpdateIn d changed).OnIncidentResolved = none) := by
  refine ⟨fun h => ?_, fun h => ?_, fun h => ?_, fun h => ?_, fun h => ?_,
    fun h => ?_, fun h => ?_, fun h => updateIn_flags_none_of_trigger d changed h⟩
  · have hf := updateIn_ID_none d changed h
    exact ⟨hf, (nil_field_key_omitted _).1 hf⟩
  · have hf := updateIn_Name_none d changed h
    exact ⟨hf, (nil_field_key_omitted _).2.1 hf⟩
  · have hf := updateIn_URL_none d changed h
    exact ⟨hf, (nil_field_key_omitted _).2.2.1 hf⟩
  · have hf := updateIn_TriggerType_none d changed h
    exact ⟨hf, (nil_field_key_omitted _).2.2.2.1 hf⟩
  · have hf := updateIn_Started_none d changed h
    exact ⟨hf, (nil_field_key_omitted _).2.2.2.2.1 hf⟩
  · have hf := updateIn_Acknowledged_none d changed h
    exact ⟨hf, (nil_field_key_omitted _).2.2.2.2.2.1 hf⟩
  · have hf := updateIn_Resolved_none d changed h
    exact ⟨hf, (nil_field_key_omitted _).2.2.2.2.2.2 hf⟩

/-- Witness for C9: only `name` changed, so `url` stays `nil` and is absent
from the payload keys. -/
theorem update_sends_only_changed_basic_fields_witness :
    (outgoingWebhookUpdateIn
        { url := "https://example.com", triggerType := "monitor_change" }
        (fun k => k == "name")).URL = none ∧
    "url" ∉ (serializeOutgoingWebhook (outgoingWebhookUpdateIn
        { url := "https://example.com", triggerType := "monitor_change" }
        (fun k => k == "name"))).map Prod.fst :=
  (update_sends_only_changed_basic_fields
    { url := "https://example.com", triggerType := "monitor_change" }
    (fun k => k == "name")).2.2.1 (by decide)

/-! ### C1: create→read round-trips the declarative record -/

theorem ite_isEmpty_eq (l : List headerTemplate) :
    (if l.isEmpty then ([] : List headerTemplate) else l) = l := by
  cases l <;> simp

/-- Copying back an echo of the created request body reproduces the
declarative record, for any target record `e` agreeing with `d` on the
fields the copy does not overwrite (`team_name`, the incident flags when
the discriminator differs, and the absent template block). -/
theorem copyAttrs_createIn_decl (d e : ResourceData)
    (hteam : e.teamName = d.teamName)
    (h1 : e.onIncidentStarted = d.onIncidentStarted)
    (h2 : e.onIncidentAcknowledged = d.onIncidentAcknowledged)
    (h3 : e.onIncidentResolved = d.onIncidentResolved)
    (htempl : d.template = none → e.template = none) :
    declRecordOf (outgoingWebhookCopyAttrs e (outgoingWebhookCreateIn d)) =
      declRecordOf d := by
  by_cases ht : d.triggerType = "incident_change" <;>
    cases hdt : d.template
  case pos.none | neg.none =>
    have he := htempl hdt
    simp [outgoingWebhookCreateIn, outgoingWebhookCopyAttrs, outgoingWebhookRef,
      load, setBasic, declRecordOf, declTemplateOf, ht, hdt, he, hteam, h1, h2, h3,
      List.foldl_cons, List.foldl_nil]
  case pos.some t | neg.some t =>
    simp [outgoingWebhookCreateIn, outgoingWebhookCopyAttrs, outgoingWebhookRef,
      load, setBasic, templateFromAttrs, declRecordOf, declTemplateOf, ht, hdt,
      hteam, h1, h2, h3, ite_isEmpty_eq, List.foldl_cons, List.foldl_nil]

/-- C1: for every valid declarative record, performing create and then read
(under the claim's assumption that the remote API echoes the attributes it
was sent) reproduces the declarative record — after the create's copy-back,
after the read's copy-back, and with no read error. -/
theorem create_read_roundtrip (d : ResourceData) (newId : String)
    (hvalid : validateOutgoingWebhook d = none) :
    declRecordOf (outgoingWebhookCreate d ⟨newId, outgoingWebhookCreateIn d⟩) =
      declRecordOf d ∧
    declRecordOf (outgoingWebhookRead
        (outgoingWebhookCreate d ⟨newId, outgoingWebhookCreateIn d⟩)
        (.ok (some ⟨newId, outgoingWebhookCreateIn d⟩))).1 = declRecordOf d ∧
    (outgoingWebhookRead (outgoingWebhookCreate d ⟨newId, outgoingWebhookCreateIn d⟩)
        (.ok (some ⟨newId, outgoingWebhookCreateIn d⟩))).2 = none := by
  have h1 : declRecordOf (outgoingWebhookCreate d ⟨newId, outgoingWebhookCreateIn d⟩) =
      declRecordOf d :=
    copyAttrs_createIn_decl d { d with id := newId } rfl rfl rfl rfl
      (fun h => by simp [h])
  refine ⟨h1, ?_, rfl⟩
  show declRecordOf (outgoingWebhookCopyAttrs
      (outgoingWebhookCreate d ⟨newId, outgoingWebhookCreateIn d⟩)
      (outgoingWebhookCreateIn d)) = declRecordOf d
  apply copyAttrs_createIn_decl d
  · exact congrArg declarativeRecord.teamName h1
  · exact congrArg declarativeRecord.onIncidentStarted h1
  · exact congrArg declarativeRecord.onIncidentAcknowledged h1
  · exact congrArg declarativeRecord.onIncidentResolved h1
  · intro h
    have h2 : (outgoingWebhookCreate d ⟨newId, outgoingWebhookCreateIn d⟩).template.map
        declTemplateOf = d.template.map declTemplateOf :=
      congrArg declarativeRecord.template h1
    rw [h] at h2
    simpa using h2

/-- Witness for C1 on a concrete valid record with a template block. -/
theorem create_read_roundtrip_witness :
    validateOutgoingWebhook roundtripSample = none ∧
    declRecordOf (outgoingWebhookCreate roundtripSample
        ⟨"42", outgoingWebhookCreateIn roundtripSample⟩) =
      declRecordOf roundtripSample :=
  ⟨rfl, (create_read_roundtrip roundtripSample "42" rfl).1⟩

/-! ### C7: body_template diff suppression under JSON equivalence -/

/-- C7: the `body_template` schema entry carries
`suppressEquivalentJSONDiffs`, and for every pair of `body_template`
strings that parse to semantically equivalent JSON (equal up to object-key
order; whitespace differences disappear at parse time) the suppression
function reports them as unchanged, so no diff is produced. -/
theorem bodyTemplate_diff_suppression (k old nw : String) (d : ResourceData)
    (a b : Json) (hold : jsonParse old = some a) (hnew : jsonParse nw = some b)
    (heq : JsonEquiv a b) :
    suppressEquivalentJSONDiffs k old nw d = true ∧
    ("body_template", bodyTemplateSchemaField) ∈ customWebhookTemplateSchema ∧
    bodyTemplateSchemaField.diffSuppressFunc = some suppressEquivalentJSONDiffs := by
  refine ⟨?_, by simp [customWebhookTemplateSchema], rfl⟩
  simp only [suppressEquivalentJSONDiffs, hold, hnew]
  rw [canon_eq_of_jsonEquiv heq]
  exact jsonBeq_refl _

/-- Witness for C7: two documents with reordered keys and different
whitespace are suppressed. -/
theorem bodyTemplate_diff_suppression_witness :
    suppressEquivalentJSONDiffs "body_template"
      "\x7b \"retries\" : 3, \"enabled\" : true \x7d"
      "\x7b\"enabled\":true,\"retries\":3\x7d" {} = true :=
  (bodyTemplate_diff_suppression "body_template"
    "\x7b \"retries\" : 3, \"enabled\" : true \x7d"
    "\x7b\"enabled\":true,\"retries\":3\x7d" {}
    (.obj [("retries", .num 3), ("enabled", .bool true)])
    (.obj [("enabled", .bool true), ("retries", .num 3)])
    rfl rfl
    (by
      simp only [JsonEquiv]
      refine ⟨by decide, [("retries", .num 3), ("enabled", .bool true)], ?_, ?_⟩
      · simp [JsonEquivEntries, JsonEquiv]
      · exact List.Perm.swap _ _ _)).1
